import Mathlib

/-!
Shallow embedding of the `ec2_ami` Ansible module
(src/cloud/amazon/ec2_ami.py) and proofs about its idempotent
convergence workflow.

The module is a sequencing layer over a cloud SDK.  We embed each
controller function (`create_image`, `deregister_image`, `update_image`,
and the validation/routing logic of `main`) as a pure Lean function.
All remote behavior (the boto connection object `ec2`) is passed in as
an explicit oracle structure `Ec2`; every remote call the controller
issues is recorded in an output list of `Call`s.  `module.exit_json` and
`module.fail_json` terminate the Python process, so each embedded
function returns an outcome value describing which exit was taken and
with which payload.  Reading a Python variable that was never assigned
(a `NameError`) is modelled as a distinguished abnormal outcome.
Wall-clock time for the deregister wait loop is a natural number that
advances by 3 on each `time.sleep(3)`.
-/

namespace Ec2Ami

/-- A boto server error as observed by the module: error code and message
(`e.error_code`, `e.error_message`). -/
structure AwsError where
  code : String
  message : String
deriving DecidableEq, Repr

/-- An image as returned by `ec2.get_all_images` (src 455): the fields the
module reads are `.id`, `.state` and (for the name filter) its name. -/
structure FoundImage where
  id : String
  state : String
  name : String
deriving DecidableEq, Repr

/-- An image as returned by `ec2.get_image` during the create poll
(src 485, 505): the module reads `.state` and, via `get_ami_info`, `.id`. -/
structure PolledImage where
  id : String
  state : String
deriving DecidableEq, Repr

/-- An image object as returned by `ec2.get_image` in `deregister_image`
(src 523).  `hasId` models the hasattr check on the id attribute
(src 535): a re-deleted
image comes back as an object without image attributes.  `snapshotIds`
models the snapshot ids read out of `img.block_device_mapping`
(src 529-531). -/
structure BotoImage where
  hasId : Bool
  snapshotIds : List String
deriving DecidableEq, Repr

/-- A launch-permission dictionary with optional `user_ids` /
`group_names` keys.  `none` models an absent key (the Python `in` test
on a dict is key presence, and dict equality distinguishes a missing key
from an empty list). -/
structure Perms where
  user_ids : Option (List String)
  group_names : Option (List String)
deriving DecidableEq, Repr

/-- One entry of the `device_mapping` parameter.  The only field the
control flow inspects is the presence of `device_name` (src 463). -/
structure DeviceSpec where
  device_name : Option String
deriving DecidableEq, Repr

/-- The module parameters (src 602-624) restricted to the fields the
controller logic reads.  Optional string parameters default to Python
`None`, modelled as `none`. -/
structure Params where
  action : String
  instance_id : Option String
  snapshot_id : Option String
  virtualization_type : Option String
  architecture : String
  delete_root_volume_on_termination : Bool
  sriov_net_support : Option String
  image_id : Option String
  delete_snapshot : Bool
  name : Option String
  wait : Bool
  wait_timeout : Nat
  state : String
  device_mapping : Option (List DeviceSpec)
  tags : Option (List (String × String))
  launch_permissions : Option Perms
deriving Repr

/-- Python truthiness of an optional string parameter: `None` and the
empty string are falsy. -/
def optStrTruthy : Option String → Bool
  | some s => !s.isEmpty
  | none => false

/-- Python truthiness of an optional list parameter: `None` and `[]` are
falsy. -/
def listOptTruthy {α : Type} : Option (List α) → Bool
  | some (_ :: _) => true
  | _ => false

/-- A launch-permission dict is truthy iff it has at least one key. -/
def Perms.hasAnyKey (p : Perms) : Bool :=
  p.user_ids.isSome || p.group_names.isSome

/-- The desired-set/current-set non-emptiness test of `update_image`
(src 587, 589): the user_ids key or the group_names key is present with
a non-empty list value. -/
def Perms.hasNonEmptyValue (p : Perms) : Bool :=
  (match p.user_ids with | some (_ :: _) => true | _ => false) ||
  (match p.group_names with | some (_ :: _) => true | _ => false)

/-- Truthiness of the optional `launch_permissions` parameter. -/
def permsTruthy : Option Perms → Bool
  | some p => p.hasAnyKey
  | none => false

/-- Python substring containment (`needle in hay`), used by the poll
loop on error codes (src 490). -/
def strContains (hay needle : String) : Bool :=
  decide (List.IsInfix needle.toList hay.toList)

/-- One remote call issued against the cloud image registry. -/
inductive Call
  | get_all_images (nameFilter : String)
  | create_from_instance (instance_id : String) (name : String)
  | register_from_snapshot (snapshot_id : Option String) (name : String)
  | get_image (image_id : String)
  | deregister (image_id : String) (delete_snapshot : Bool)
  | delete_snapshot (snapshot_id : String)
  | create_tags (image_id : String)
  | get_launch_permissions (image_id : String)
  | set_launch_permissions (image_id : String) (perms : Perms)
  | remove_launch_permissions (image_id : String) (perms : Perms)
deriving DecidableEq, Repr

/-- The behavior of the boto connection, provided as an oracle: each
field is the response the registry would give to the corresponding call.
Responses that the code observes at several distinct program points get
distinct fields; the two polling loops receive families of responses
indexed by iteration count (create poll) or by current time in seconds
(deregister wait loop). -/
structure Ec2 where
  get_all_images : String → List FoundImage
  create_image_result : Except AwsError String
  register_image_result : Except AwsError String
  poll_get_image : Nat → Except AwsError PolledImage
  create_tags_result : Option AwsError
  perm_get_image : Except AwsError PolledImage
  set_launch_permissions_result : Option AwsError
  dereg_get_image : Option BotoImage
  deregister_result : Option AwsError
  wait_get_image : Nat → Option BotoImage
  delete_snapshot_result : String → Option AwsError
  upd_get_image : Option Unit
  get_launch_permissions_result : Except AwsError Perms
  upd_set_result : Option AwsError
  upd_remove_result : Option AwsError

/-- `"%s: %s" % (e.error_code, e.error_message)` (src 478, 508, 541, 598). -/
def serverErrMsg (e : AwsError) : String := e.code ++ ": " ++ e.message

/-- Tagging failure message (src 502). -/
def tagFailMsg (e : AwsError) : String :=
  "Image tagging failed => " ++ e.code ++ ": " ++ e.message

/-- In-loop poll failure message (src 491). -/
def pollLoopFailMsg (e : AwsError) : String :=
  "Error while trying to find the new image. Using wait=yes and/or a longer wait_timeout may help. " ++ serverErrMsg e

/-- Post-loop convergence-timeout message (src 496). -/
def convergenceTimeoutMsg : String :=
  "Error while trying to find the new image. Using wait=yes and/or a longer wait_timeout may help."

/-- Deregister wait timeout message (src 553). -/
def deregTimeoutMsg : String :=
  "timed out waiting for image to be deregistered/deleted"

/-- Result of the create-path poll loop (src 483-493).  The `Nat`
argument counts loop iterations entered (each iteration performs one
`get_image` fetch and, via the `finally` clause, one `time.sleep(1)`).
`broke` records breaking out on an available image; `failedInLoop`
records the in-loop `fail_json` (src 491); `exhausted` records falling
off the end of `range(wait_timeout)` carrying the last value assigned to
the Python variable `img` (`none` when `img` was never assigned and the
read at src 495 raises `NameError`). -/
inductive PollResult
  | broke (img : PolledImage) (iters : Nat)
  | failedInLoop (e : AwsError) (iters : Nat)
  | exhausted (last : Option PolledImage) (iters : Nat)
deriving DecidableEq, Repr

/-- Iterations entered by the poll loop. -/
def pollIters : PollResult → Nat
  | .broke _ n => n
  | .failedInLoop _ n => n
  | .exhausted _ n => n

/-- The poll loop body (src 483-493), iterating `i` upward to
`wt = wait_timeout`, carrying the last assigned `img`.  An exception
whose code contains neither `InvalidAMIID.NotFound` nor
`InvalidAMIID.Unavailable`, with `wait` set, on the final iteration,
fails hard; any other exception is treated as transient.  Recursion is
on an explicit `fuel` so the definition computes by structural
recursion; `pollLoop` below supplies `fuel = wt`, which never runs out
because each step increases `i` by one. -/
def pollGo (fetch : Nat → Except AwsError PolledImage) (wt : Nat) (wait : Bool) :
    Nat → Nat → Option PolledImage → PollResult
  | 0, _i, last => PollResult.exhausted last wt
  | fuel + 1, i, last =>
    if i < wt then
      match fetch i with
      | Except.ok img =>
        if img.state = "available" then PollResult.broke img (i + 1)
        else pollGo fetch wt wait fuel (i + 1) (some img)
      | Except.error e =>
        if (!(strContains e.code "InvalidAMIID.NotFound") &&
            !(strContains e.code "InvalidAMIID.Unavailable")) && wait && (i == wt - 1) then
          PollResult.failedInLoop e (i + 1)
        else pollGo fetch wt wait fuel (i + 1) last
    else PollResult.exhausted last wt

/-- The poll loop of `create_image` (src 483-493), started at `i = 0`
with the Python variable `img` unassigned. -/
def pollLoop (fetch : Nat → Except AwsError PolledImage) (wt : Nat) (wait : Bool) :
    PollResult :=
  pollGo fetch wt wait wt 0 none

/-- Outcome of `create_image` (src 415-510). -/
inductive CreateOutcome
  | exitAlreadyPresent (image_id : String) (state : String)
  | exitComplete (image_id : String) (state : String)
  | fail (msg : String) (image_id : Option String)
  | nameError
deriving DecidableEq, Repr

/-- The `changed` field reported by each `create_image` exit
(src 458 reports `changed=False`; src 510 reports `changed=True`;
`fail_json` exits and the `NameError` crash carry no `changed`). -/
def CreateOutcome.changed : CreateOutcome → Option Bool
  | .exitAlreadyPresent _ _ => some false
  | .exitComplete _ _ => some true
  | .fail _ _ => none
  | .nameError => none

/-- `device_name` presence check performed while building the block
device mapping (src 462-464); the Python loop fails at the first entry
without a `device_name`. -/
def allDevicesNamed : List DeviceSpec → Bool
  | [] => true
  | d :: ds => d.device_name.isSome && allDevicesNamed ds

/-- Launch-permission phase of `create_image` (src 503-508): refetch the
image and set permissions; a failure here is fatal and its payload
carries the image id. -/
def permsPhase (p : Params) (ec2 : Ec2) (iid : String) (img : PolledImage)
    (calls : List Call) : CreateOutcome × List Call :=
  if permsTruthy p.launch_permissions then
    let calls1 := calls ++ [Call.get_image iid]
    match ec2.perm_get_image with
    | Except.error e => (CreateOutcome.fail (serverErrMsg e) (some iid), calls1)
    | Except.ok img2 =>
      let lp := p.launch_permissions.getD ⟨none, none⟩
      let calls2 := calls1 ++ [Call.set_launch_permissions iid lp]
      match ec2.set_launch_permissions_result with
      | some e => (CreateOutcome.fail (serverErrMsg e) (some iid), calls2)
      | none => (CreateOutcome.exitComplete img2.id img2.state, calls2)
  else (CreateOutcome.exitComplete img.id img.state, calls)

/-- Tagging phase of `create_image` (src 498-502): a tagging failure is
fatal; no compensating call is issued. -/
def tagsPhase (p : Params) (ec2 : Ec2) (iid : String) (img : PolledImage)
    (calls : List Call) : CreateOutcome × List Call :=
  if listOptTruthy p.tags then
    let calls1 := calls ++ [Call.create_tags iid]
    match ec2.create_tags_result with
    | some e => (CreateOutcome.fail (tagFailMsg e) none, calls1)
    | none => permsPhase p ec2 iid img calls1
  else permsPhase p ec2 iid img calls

/-- Poll-and-finish phase of `create_image` (src 483-510).  When neither
remote call assigned `image_id`, the first read of that variable raises
`NameError` (src 485; with a zero-iteration loop the read of `img` at
src 495 does). -/
def postCreatePhase (p : Params) (ec2 : Ec2) (imageId : Option String)
    (calls : List Call) : CreateOutcome × List Call :=
  match imageId with
  | none => (CreateOutcome.nameError, calls)
  | some iid =>
    let pr := pollLoop ec2.poll_get_image p.wait_timeout p.wait
    let calls1 := calls ++ List.replicate (pollIters pr) (Call.get_image iid)
    match pr with
    | PollResult.failedInLoop e _ => (CreateOutcome.fail (pollLoopFailMsg e) none, calls1)
    | PollResult.exhausted none _ => (CreateOutcome.nameError, calls1)
    | PollResult.exhausted (some img) _ =>
      if img.state = "available" then tagsPhase p ec2 iid img calls1
      else (CreateOutcome.fail convergenceTimeoutMsg none, calls1)
    | PollResult.broke img _ => tagsPhase p ec2 iid img calls1

/-- `if snapshot_id: image_id = ec2.register_image(**register_params)`
(src 474-475): an independent `if`, not an `elif`; when it runs, its
result overwrites any id produced by the create call. -/
def registerPhase (p : Params) (ec2 : Ec2) (name : String) (imageId : Option String)
    (calls : List Call) : CreateOutcome × List Call :=
  if optStrTruthy p.snapshot_id then
    let calls1 := calls ++ [Call.register_from_snapshot p.snapshot_id name]
    match ec2.register_image_result with
    | Except.error e => (CreateOutcome.fail (serverErrMsg e) none, calls1)
    | Except.ok rid => postCreatePhase p ec2 (some rid) calls1
  else postCreatePhase p ec2 imageId calls

/-- `if instance_id: image_id = ec2.create_image(**params)` (src
472-473), then the register step.  A `BotoServerError` from either call
is caught at src 477 and is fatal. -/
def createRegisterPhase (p : Params) (ec2 : Ec2) (name : String)
    (calls : List Call) : CreateOutcome × List Call :=
  if optStrTruthy p.instance_id then
    let calls1 := calls ++ [Call.create_from_instance (p.instance_id.getD "") name]
    match ec2.create_image_result with
    | Except.error e => (CreateOutcome.fail (serverErrMsg e) none, calls1)
    | Except.ok cid => registerPhase p ec2 name (some cid) calls1
  else registerPhase p ec2 name none calls

/-- `create_image` (src 415-510): look up by name, exit unchanged if the
name exists, validate the device mapping, issue create and/or register,
poll, tag, set permissions. -/
def create_image (p : Params) (ec2 : Ec2) : CreateOutcome × List Call :=
  let name := p.name.getD ""
  let calls0 : List Call := [Call.get_all_images name]
  match ec2.get_all_images name with
  | img :: _ => (CreateOutcome.exitAlreadyPresent img.id img.state, calls0)
  | [] =>
    if listOptTruthy p.device_mapping &&
       !(allDevicesNamed (p.device_mapping.getD [])) then
      (CreateOutcome.fail "Device name must be set for volume" none, calls0)
    else createRegisterPhase p ec2 name calls0

/-- Outcome of `deregister_image` (src 513-567).  `fail` carries the
optional `changed` field passed to `fail_json` (only the missing-image
exit passes one, src 525). -/
inductive DeregOutcome
  | fail (msg : String) (changed : Option Bool)
  | exitAlreadyDeleted (msg : String)
  | exitDone (snapshots_deleted : Option (List String))
deriving DecidableEq, Repr

/-- Whether the deregister outcome is a `fail_json` exit. -/
def DeregOutcome.isFailure : DeregOutcome → Bool
  | .fail _ _ => true
  | _ => false

/-- The `changed` field reported by each `deregister_image` exit. -/
def DeregOutcome.changed : DeregOutcome → Option Bool
  | .fail _ c => c
  | .exitAlreadyDeleted _ => some false
  | .exitDone _ => some true

/-- The wait loop of `deregister_image` (src 548-550):
`while wait and wait_timeout > time.time() and img is not None`, with a
fetch and a `time.sleep(3)` in the body.  `now` is the clock (seconds
since the loop setup at src 546-547, where `time.time()` read 0), so the
deadline is the absolute instant `0 + wait_timeout`.  Returns the final
clock value, the final `img`, and the number of loop iterations. -/
def deregGo (fetch : Nat → Option BotoImage) (wait : Bool) (deadline : Nat) :
    Nat → Nat → Option BotoImage → Nat → Nat × Option BotoImage × Nat
  | 0, now, img, fetches => (now, img, fetches)
  | fuel + 1, now, img, fetches =>
    if wait = true ∧ now < deadline ∧ img.isSome = true then
      deregGo fetch wait deadline fuel (now + 3) (fetch now) (fetches + 1)
    else (now, img, fetches)

/-- The wait loop started at clock 0: `fuel = deadline` steps never run
out because each iteration advances the clock by 3. -/
def deregWaitLoop (fetch : Nat → Option BotoImage) (wait : Bool) (deadline : Nat)
    (img : Option BotoImage) : Nat × Option BotoImage × Nat :=
  deregGo fetch wait deadline deadline 0 img 0

/-- The snapshot-deletion loop (src 559-560) inside its `try`: the first
raised `BotoServerError` aborts the remaining deletions.  Returns the
caught error, if any, and the list of snapshot ids actually passed to
`delete_snapshot`. -/
def deleteSnapsLoop (del : String → Option AwsError) :
    List String → Option AwsError × List String
  | [] => (none, [])
  | s :: rest =>
    match del s with
    | none =>
      let r := deleteSnapsLoop del rest
      (r.fst, s :: r.snd)
    | some e => (some e, [s])

/-- `deregister_image` (src 513-567).  Note on src 561-564: the `except`
handler compares the caught error code with `InvalidSnapshot.NotFound`
and executes `pass`; the handler has no other branch, so execution falls
through to the success `exit_json` for every caught error code. -/
def deregister_image (p : Params) (ec2 : Ec2) : DeregOutcome × List Call :=
  let image_id := p.image_id.getD ""
  let calls0 : List Call := [Call.get_image image_id]
  match ec2.dereg_get_image with
  | none =>
    (DeregOutcome.fail ("Image " ++ image_id ++ " does not exist") (some false), calls0)
  | some img =>
    let snapshots := img.snapshotIds
    if img.hasId then
      let calls1 := calls0 ++ [Call.deregister image_id p.delete_snapshot]
      match ec2.deregister_result with
      | some e => (DeregOutcome.fail (serverErrMsg e) none, calls1)
      | none =>
        let img0 := ec2.wait_get_image 0
        let deadline := 0 + p.wait_timeout
        let w := deregWaitLoop ec2.wait_get_image p.wait deadline img0
        let calls2 := calls1 ++ List.replicate (w.snd.snd + 1) (Call.get_image image_id)
        if p.wait && decide (deadline ≤ w.fst) then
          (DeregOutcome.fail deregTimeoutMsg none, calls2)
        else if p.delete_snapshot then
          let d := deleteSnapsLoop ec2.delete_snapshot_result snapshots
          (DeregOutcome.exitDone (some snapshots),
           calls2 ++ d.snd.map Call.delete_snapshot)
        else (DeregOutcome.exitDone none, calls2)
    else
      (DeregOutcome.exitAlreadyDeleted
        ("Image " ++ image_id ++ " has already been deleted"), calls0)

/-- Outcome of `update_image` (src 570-598).  `updated` carries the
`launch_permissions` and `set_perms` payloads of the changed exit
(src 593); `notUpdated` carries the reported current permissions
(src 592, 595). -/
inductive UpdateOutcome
  | notUpdated (launch_permissions : Perms)
  | updated (launch_permissions : Perms) (set_perms : Perms)
  | fail (msg : String) (changed : Option Bool)
deriving DecidableEq, Repr

/-- `update_image` (src 570-598).  The `str()` conversion of `user_ids`
(src 577-578) is the identity on this string-valued model. -/
def update_image (p : Params) (ec2 : Ec2) : UpdateOutcome × List Call :=
  let image_id := p.image_id.getD ""
  let lp := p.launch_permissions.getD ⟨none, none⟩
  let calls0 : List Call := [Call.get_image image_id]
  match ec2.upd_get_image with
  | none =>
    (UpdateOutcome.fail ("Image " ++ image_id ++ " does not exist") (some false), calls0)
  | some _ =>
    let calls1 := calls0 ++ [Call.get_launch_permissions image_id]
    match ec2.get_launch_permissions_result with
    | Except.error e => (UpdateOutcome.fail (serverErrMsg e) none, calls1)
    | Except.ok set_permissions =>
      if set_permissions ≠ lp then
        if lp.hasNonEmptyValue then
          match ec2.upd_set_result with
          | some e =>
            (UpdateOutcome.fail (serverErrMsg e) none,
             calls1 ++ [Call.set_launch_permissions image_id lp])
          | none =>
            (UpdateOutcome.updated lp set_permissions,
             calls1 ++ [Call.set_launch_permissions image_id lp])
        else if set_permissions.hasNonEmptyValue then
          match ec2.upd_remove_result with
          | some e =>
            (UpdateOutcome.fail (serverErrMsg e) none,
             calls1 ++ [Call.remove_launch_permissions image_id set_permissions])
          | none =>
            (UpdateOutcome.updated lp set_permissions,
             calls1 ++ [Call.remove_launch_permissions image_id set_permissions])
        else (UpdateOutcome.notUpdated set_permissions, calls1)
      else (UpdateOutcome.notUpdated set_permissions, calls1)

/-- The sriov_net_support check (src 680-681): the parameter is truthy
and its value is neither None nor the string simple. -/
def sriovBad : Option String → Bool
  | some s => !s.isEmpty && !(s == "simple")
  | none => false

/-- The validation chain of `main` for `state=present` requests that are
not routed to `update_image` (src 647-685), in source order; `some msg`
is the first `fail_json` message, `none` means control reaches
`create_image`. -/
def presentValidation (p : Params) : Option String :=
  if !(p.action == "create" || p.action == "register") then
    some "action must be create or register"
  else if p.action == "create" && !(optStrTruthy p.instance_id) then
    some "instance_id is required for new image"
  else if p.action == "register" && !(optStrTruthy p.virtualization_type) then
    some "virtualization_type is required for new image"
  else if p.action == "register" &&
      !(p.virtualization_type.getD "" == "paravirtual" ||
        p.virtualization_type.getD "" == "hvm") then
    some "virtualization_type must be either paravirtual or hvm"
  else if p.action == "register" && !(optStrTruthy p.snapshot_id) &&
      !(listOptTruthy p.device_mapping) then
    some "either snapshot_id or device_mapping is required for new image"
  else if p.action == "register" && optStrTruthy p.snapshot_id &&
      listOptTruthy p.device_mapping then
    some "device_mapping is mutually exclusive with snapshot_id"
  else if p.action == "register" &&
      !(p.architecture == "x86_64" || p.architecture == "i386") then
    some "architecture must be eith x86_64 or i386"
  else if p.action == "register" && p.delete_root_volume_on_termination &&
      !(optStrTruthy p.snapshot_id) then
    some "snapshot_id is required when using delete_root_volume_on_termination"
  else if p.action == "register" && sriovBad p.sriov_net_support then
    some "sriov_net_support must be simple or not set"
  else if !(optStrTruthy p.name) then
    some "name parameter is required for new image"
  else none

/-- Result of `main` (src 600-686): which exit path was taken. -/
inductive MainResult
  | failMsg (msg : String)
  | updated (u : UpdateOutcome)
  | created (c : CreateOutcome)
  | deregistered (d : DeregOutcome)
  | fellThrough
deriving DecidableEq, Repr

/-- `main` (src 600-686), past argument parsing and connection setup:
route on `state`, then either deregister, update launch permissions
(which always exits, src 592-598), or validate and create.  A `state`
that is neither `absent` nor `present` falls off the end of `main`. -/
def main (p : Params) (ec2 : Ec2) : MainResult × List Call :=
  if p.state == "absent" then
    if !(optStrTruthy p.image_id) then
      (MainResult.failMsg "image_id needs to be an ami image to registered/delete", [])
    else
      let d := deregister_image p ec2
      (MainResult.deregistered d.fst, d.snd)
  else if p.state == "present" then
    if optStrTruthy p.image_id && permsTruthy p.launch_permissions then
      let u := update_image p ec2
      (MainResult.updated u.fst, u.snd)
    else
      match presentValidation p with
      | some msg => (MainResult.failMsg msg, [])
      | none =>
        let c := create_image p ec2
        (MainResult.created c.fst, c.snd)
  else (MainResult.fellThrough, [])

/-- `get_all_images` with a name filter against a concrete registry
(src 455 passes a name filter to `ec2.get_all_images`): the images
whose name equals the filter. -/
def getAllByName (reg : List FoundImage) (n : String) : List FoundImage :=
  reg.filter (fun i => i.name == n)

/-! ### Concrete fixtures for counterexamples and witnesses -/

/-- An oracle whose responses are all benign; concrete scenarios
override individual fields. -/
def ec2Base : Ec2 where
  get_all_images := fun _ => []
  create_image_result := Except.ok "ami-created"
  register_image_result := Except.ok "ami-registered"
  poll_get_image := fun _ => Except.ok ⟨"ami-created", "available"⟩
  create_tags_result := none
  perm_get_image := Except.ok ⟨"ami-created", "available"⟩
  set_launch_permissions_result := none
  dereg_get_image := none
  deregister_result := none
  wait_get_image := fun _ => none
  delete_snapshot_result := fun _ => none
  upd_get_image := none
  get_launch_permissions_result := Except.ok ⟨none, none⟩
  upd_set_result := none
  upd_remove_result := none

/-- Default parameter values from the argument spec (src 602-624). -/
def paramsBase : Params where
  action := "create"
  instance_id := none
  snapshot_id := none
  virtualization_type := none
  architecture := "x86_64"
  delete_root_volume_on_termination := false
  sriov_net_support := none
  image_id := none
  delete_snapshot := false
  name := none
  wait := false
  wait_timeout := 900
  state := "present"
  device_mapping := none
  tags := none
  launch_permissions := none

/-! ### C1: deregister of a non-existent image id -/

/-- A deregister request for an id the registry does not know. -/
def pC1 : Params := { paramsBase with state := "absent", image_id := some "ami-01" }

/-- Same request against an oracle whose fetch returns the attribute-less
object boto produces for an already-deleted image. -/
def ec2C1gone : Ec2 := { ec2Base with dereg_get_image := some ⟨false, []⟩ }

/-- C1 counterexample: when `ec2.get_image` returns `None` (the image id
does not exist), `deregister_image` exits through `fail_json`
(src 524-525), i.e. it reports an error, contradicting the claim that
this case is a successful no-change outcome. -/
theorem deregister_missing_image_reports_failure_ce :
    (deregister_image pC1 ec2Base).fst =
      DeregOutcome.fail "Image ami-01 does not exist" (some false) ∧
    DeregOutcome.isFailure (deregister_image pC1 ec2Base).fst = true := by
  constructor <;> rfl

/-- C1 (amended): a deregister request whose fetch returns nothing fails
via `fail_json` with message `Image <id> does not exist` and a
`changed=false` payload (src 524-525); the successful
`changed=false` "already absent" exit occurs only when the fetch
returns an object without an `id` attribute (src 535, 542-543). -/
theorem deregister_absent_image_outcomes (p : Params) (ec2 : Ec2) :
    (ec2.dereg_get_image = none →
      (deregister_image p ec2).fst =
        DeregOutcome.fail ("Image " ++ p.image_id.getD "" ++ " does not exist")
          (some false)) ∧
    (∀ img : BotoImage, ec2.dereg_get_image = some img → img.hasId = false →
      (deregister_image p ec2).fst =
        DeregOutcome.exitAlreadyDeleted
          ("Image " ++ p.image_id.getD "" ++ " has already been deleted")) := by
  constructor
  · intro h
    simp [deregister_image, h]
  · intro img h hid
    simp [deregister_image, h, hid]

/-- Witness for `deregister_absent_image_outcomes` at concrete inputs. -/
theorem deregister_absent_image_outcomes_witness :
    (deregister_image pC1 ec2Base).fst =
      DeregOutcome.fail "Image ami-01 does not exist" (some false) ∧
    (deregister_image pC1 ec2C1gone).fst =
      DeregOutcome.exitAlreadyDeleted "Image ami-01 has already been deleted" :=
  ⟨(deregister_absent_image_outcomes pC1 ec2Base).1 rfl,
   (deregister_absent_image_outcomes pC1 ec2C1gone).2 ⟨false, []⟩ rfl rfl⟩

/-! ### C2: snapshot deletion error handling during deregister -/

/-- A deregister request with snapshot deletion and no waiting. -/
def pC2 : Params :=
  { paramsBase with state := "absent", image_id := some "ami-02", delete_snapshot := true }

/-- Oracle for C2: the image exists with two snapshots in its block
device mapping; deleting the first snapshot fails with an error code
that is not `InvalidSnapshot.NotFound`. -/
def ec2C2 : Ec2 :=
  { ec2Base with
    dereg_get_image := some ⟨true, ["snap-1", "snap-2"]⟩,
    delete_snapshot_result := fun s =>
      if s == "snap-1" then some ⟨"UnauthorizedOperation", "not allowed"⟩ else none }

/-- C2: evaluation of `deregister_image` at the failing input.  The
deletion of `snap-1` raises `UnauthorizedOperation`; because the
`except` handler (src 561-564) has no branch other than the
`InvalidSnapshot.NotFound` `pass`, the error is swallowed, the remaining
snapshot `snap-2` is never passed to `delete_snapshot`, and the module
exits successfully with `changed=true` reporting both snapshot ids as
deleted — instead of propagating the non-NotFound error as a fatal
failure. -/
theorem deregister_swallows_all_snapshot_delete_errors :
    deregister_image pC2 ec2C2 =
      (DeregOutcome.exitDone (some ["snap-1", "snap-2"]),
       [Call.get_image "ami-02", Call.deregister "ami-02" true,
        Call.get_image "ami-02", Call.delete_snapshot "snap-1"]) := by
  rfl

/-! ### C4: EnsurePresent is a no-op when the name already exists -/

/-- C4: when the name lookup returns at least one image, `create_image`
exits immediately with that first image id and state and `changed=false`
(src 455-458), having issued only the lookup call — no create, register,
tag, or permission call.  The second conjunct phrases the two-invocation
consequence against a concrete registry: once an image with the
requested name is in the registry (as after a successful first
invocation), an invocation with that name reports `changed=false` with
only the lookup issued. -/
theorem create_image_existing_name_no_change :
    (∀ (p : Params) (ec2 : Ec2) (n : String) (img : FoundImage) (rest : List FoundImage),
      p.name = some n →
      ec2.get_all_images n = img :: rest →
      (create_image p ec2).fst = CreateOutcome.exitAlreadyPresent img.id img.state ∧
      CreateOutcome.changed (create_image p ec2).fst = some false ∧
      (create_image p ec2).snd = [Call.get_all_images n]) ∧
    (∀ (p : Params) (ec2 : Ec2) (reg : List FoundImage) (n : String) (img : FoundImage),
      p.name = some n → img.name = n →
      CreateOutcome.changed
        (create_image p { ec2 with get_all_images := getAllByName (img :: reg) }).fst
          = some false ∧
      (create_image p { ec2 with get_all_images := getAllByName (img :: reg) }).snd
          = [Call.get_all_images n]) := by
  constructor
  · intro p ec2 n img rest hname hlook
    refine ⟨?_, ?_, ?_⟩ <;> simp [create_image, hname, hlook, CreateOutcome.changed]
  · intro p ec2 reg n img hname himg
    have hlook : getAllByName (img :: reg) n = img :: reg.filter (fun i => i.name == n) := by
      simp [getAllByName, List.filter_cons, himg]
    constructor <;> simp [create_image, hname, hlook, CreateOutcome.changed]

/-- Request naming an image that the registry already holds. -/
def pC4 : Params :=
  { paramsBase with
    name := some "newtest",
    instance_id := some "i-04" }

/-- Registry already holding an image named newtest. -/
def ec2C4 : Ec2 :=
  { ec2Base with
    get_all_images := getAllByName [⟨"ami-04", "available", "newtest"⟩] }

/-- Witness for `create_image_existing_name_no_change` at concrete
inputs. -/
theorem create_image_existing_name_no_change_witness :
    ((create_image pC4 ec2C4).fst = CreateOutcome.exitAlreadyPresent "ami-04" "available" ∧
     CreateOutcome.changed (create_image pC4 ec2C4).fst = some false ∧
     (create_image pC4 ec2C4).snd = [Call.get_all_images "newtest"]) ∧
    (CreateOutcome.changed
        (create_image pC4 { ec2Base with
          get_all_images := getAllByName (⟨"ami-04", "available", "newtest"⟩ :: []) }).fst
      = some false) :=
  ⟨create_image_existing_name_no_change.1 pC4 ec2C4 "newtest"
      ⟨"ami-04", "available", "newtest"⟩ [] rfl rfl,
   (create_image_existing_name_no_change.2 pC4 ec2Base [] "newtest"
      ⟨"ami-04", "available", "newtest"⟩ rfl rfl).1⟩

/-! ### C5: update_image launch-permission reconciliation -/

/-- C5: given a found image and a successful permission fetch,
`update_image` (src 584-595) behaves as a two-state toggle: equal sets
exit `changed=false` with no grant or revoke call; unequal sets with a
non-empty desired set issue exactly one wholesale grant of the desired
set with `changed=true`; otherwise a non-empty current set is revoked
wholesale with `changed=true`; otherwise the exit is `changed=false`
with no grant or revoke call. -/
theorem update_image_permission_cases
    (p : Params) (ec2 : Ec2) (lp current : Perms)
    (hlp : p.launch_permissions = some lp)
    (himg : ec2.upd_get_image = some ())
    (hcur : ec2.get_launch_permissions_result = Except.ok current)
    (hset : ec2.upd_set_result = none)
    (hrem : ec2.upd_remove_result = none) :
    (current = lp →
      (update_image p ec2).fst = UpdateOutcome.notUpdated current ∧
      (update_image p ec2).snd =
        [Call.get_image (p.image_id.getD ""),
         Call.get_launch_permissions (p.image_id.getD "")]) ∧
    (current ≠ lp → lp.hasNonEmptyValue = true →
      (update_image p ec2).fst = UpdateOutcome.updated lp current ∧
      (update_image p ec2).snd =
        [Call.get_image (p.image_id.getD ""),
         Call.get_launch_permissions (p.image_id.getD ""),
         Call.set_launch_permissions (p.image_id.getD "") lp]) ∧
    (current ≠ lp → lp.hasNonEmptyValue = false → current.hasNonEmptyValue = true →
      (update_image p ec2).fst = UpdateOutcome.updated lp current ∧
      (update_image p ec2).snd =
        [Call.get_image (p.image_id.getD ""),
         Call.get_launch_permissions (p.image_id.getD ""),
         Call.remove_launch_permissions (p.image_id.getD "") current]) ∧
    (current ≠ lp → lp.hasNonEmptyValue = false → current.hasNonEmptyValue = false →
      (update_image p ec2).fst = UpdateOutcome.notUpdated current ∧
      (update_image p ec2).snd =
        [Call.get_image (p.image_id.getD ""),
         Call.get_launch_permissions (p.image_id.getD "")]) := by
  refine ⟨?_, ?_, ?_, ?_⟩
  · intro hc
    constructor <;> simp [update_image, hlp, himg, hcur, hset, hrem, hc]
  · intro hc hv
    constructor <;> simp [update_image, hlp, himg, hcur, hset, hrem, hc, hv]
  · intro hc hv hw
    constructor <;> simp [update_image, hlp, himg, hcur, hset, hrem, hc, hv, hw]
  · intro hc hv hw
    constructor <;> simp [update_image, hlp, himg, hcur, hset, hrem, hc, hv, hw]

/-- Desired permissions granting account 111. -/
def pC5a : Params :=
  { paramsBase with
    image_id := some "ami-05",
    launch_permissions := some ⟨some ["111"], none⟩ }

/-- Desired permissions with an empty user_ids list (truthy dict, empty
value). -/
def pC5b : Params :=
  { paramsBase with
    image_id := some "ami-05",
    launch_permissions := some ⟨some [], none⟩ }

/-- Current permissions equal to the desired set of `pC5a`. -/
def ec2C5eq : Ec2 :=
  { ec2Base with
    upd_get_image := some (),
    get_launch_permissions_result := Except.ok ⟨some ["111"], none⟩ }

/-- Current permissions empty. -/
def ec2C5grant : Ec2 :=
  { ec2Base with
    upd_get_image := some (),
    get_launch_permissions_result := Except.ok ⟨none, none⟩ }

/-- Current permissions naming account 222. -/
def ec2C5revoke : Ec2 :=
  { ec2Base with
    upd_get_image := some (),
    get_launch_permissions_result := Except.ok ⟨some ["222"], none⟩ }

/-- Current permissions with empty-valued keys, unequal to `pC5b` but
with nothing to revoke. -/
def ec2C5none : Ec2 :=
  { ec2Base with
    upd_get_image := some (),
    get_launch_permissions_result := Except.ok ⟨some [], some []⟩ }

/-- Witness for `update_image_permission_cases`: all four branches at
concrete inputs. -/
theorem update_image_permission_cases_witness :
    ((update_image pC5a ec2C5eq).fst = UpdateOutcome.notUpdated ⟨some ["111"], none⟩ ∧
     (update_image pC5a ec2C5eq).snd =
       [Call.get_image "ami-05", Call.get_launch_permissions "ami-05"]) ∧
    ((update_image pC5a ec2C5grant).fst =
       UpdateOutcome.updated ⟨some ["111"], none⟩ ⟨none, none⟩ ∧
     (update_image pC5a ec2C5grant).snd =
       [Call.get_image "ami-05", Call.get_launch_permissions "ami-05",
        Call.set_launch_permissions "ami-05" ⟨some ["111"], none⟩]) ∧
    ((update_image pC5b ec2C5revoke).fst =
       UpdateOutcome.updated ⟨some [], none⟩ ⟨some ["222"], none⟩ ∧
     (update_image pC5b ec2C5revoke).snd =
       [Call.get_image "ami-05", Call.get_launch_permissions "ami-05",
        Call.remove_launch_permissions "ami-05" ⟨some ["222"], none⟩]) ∧
    ((update_image pC5b ec2C5none).fst = UpdateOutcome.notUpdated ⟨some [], some []⟩ ∧
     (update_image pC5b ec2C5none).snd =
       [Call.get_image "ami-05", Call.get_launch_permissions "ami-05"]) :=
  ⟨(update_image_permission_cases pC5a ec2C5eq ⟨some ["111"], none⟩ ⟨some ["111"], none⟩
      rfl rfl rfl rfl rfl).1 rfl,
   ((update_image_permission_cases pC5a ec2C5grant ⟨some ["111"], none⟩ ⟨none, none⟩
      rfl rfl rfl rfl rfl).2.1 (by decide) rfl),
   ((update_image_permission_cases pC5b ec2C5revoke ⟨some [], none⟩ ⟨some ["222"], none⟩
      rfl rfl rfl rfl rfl).2.2.1 (by decide) rfl rfl),
   ((update_image_permission_cases pC5b ec2C5none ⟨some [], none⟩ ⟨some [], some []⟩
      rfl rfl rfl rfl rfl).2.2.2 (by decide) rfl rfl)⟩

/-! ### C7: register mode requires exactly one of snapshot_id and
device_mapping -/

/-- C7: a `state=present` request not routed to `update_image`, with
`action=register`, carrying both or neither of snapshot_id and
device_mapping (the two truthiness flags agree), is rejected by the
validation chain of `main` (src 663-671) with some `fail_json` message
and an empty list of issued registry calls. -/
theorem register_source_xor_validated
    (p : Params) (ec2 : Ec2)
    (hstate : p.state = "present")
    (hroute : (optStrTruthy p.image_id && permsTruthy p.launch_permissions) = false)
    (haction : p.action = "register")
    (hxor : optStrTruthy p.snapshot_id = listOptTruthy p.device_mapping) :
    ∃ msg, main p ec2 = (MainResult.failMsg msg, []) := by
  have hval : ∃ msg, presentValidation p = some msg := by
    unfold presentValidation
    rw [haction]
    by_cases h3 : optStrTruthy p.virtualization_type = true
    · by_cases h4 : (p.virtualization_type.getD "" == "paravirtual" ||
          p.virtualization_type.getD "" == "hvm") = true
      · cases hsnap : optStrTruthy p.snapshot_id with
        | false =>
          refine ⟨"either snapshot_id or device_mapping is required for new image", ?_⟩
          rw [hxor] at hsnap
          simp [h3, h4, hsnap, hxor]
        | true =>
          refine ⟨"device_mapping is mutually exclusive with snapshot_id", ?_⟩
          rw [hxor] at hsnap
          simp [h3, h4, hsnap, hxor]
      · exact ⟨"virtualization_type must be either paravirtual or hvm", by simp [h3, h4]⟩
    · exact ⟨"virtualization_type is required for new image", by simp [h3]⟩
  obtain ⟨msg, hmsg⟩ := hval
  refine ⟨msg, ?_⟩
  have hsa : (p.state == "absent") = false := by simp [hstate]
  have hsp : (p.state == "present") = true := by simp [hstate]
  simp [main, hsa, hsp, hroute, hmsg]

/-- Register request carrying neither snapshot_id nor device_mapping. -/
def pC7 : Params :=
  { paramsBase with
    action := "register",
    virtualization_type := some "hvm",
    name := some "img7" }

/-- Witness for `register_source_xor_validated` at a concrete input. -/
theorem register_source_xor_validated_witness :
    ∃ msg, main pC7 ec2Base = (MainResult.failMsg msg, []) :=
  register_source_xor_validated pC7 ec2Base rfl rfl rfl rfl

/-! ### Poll-loop lemmas for C6 -/

/-- The poll loop enters at most `wt` iterations. -/
theorem pollGo_iters_le (fetch : Nat → Except AwsError PolledImage) (wt : Nat)
    (wait : Bool) :
    ∀ (fuel i : Nat) (last : Option PolledImage),
      pollIters (pollGo fetch wt wait fuel i last) ≤ wt := by
  intro fuel
  induction fuel with
  | zero => intro i last; simp [pollGo, pollIters]
  | succ fuel ih =>
    intro i last
    rw [pollGo]
    split
    · rename_i hlt
      cases hfe : fetch i with
      | ok img =>
        simp only [hfe]
        split
        · simp only [pollIters]; omega
        · exact ih (i + 1) (some img)
      | error e =>
        simp only [hfe]
        split
        · simp only [pollIters]; omega
        · exact ih (i + 1) last
    · simp [pollIters]

/-- When every fetched record up to iteration `j` is non-available and
the record at `j` is available, the poll loop breaks at iteration `j`
with that record, having entered `j + 1` iterations. -/
theorem pollGo_breaks_first_available
    (fetch : Nat → Except AwsError PolledImage) (wt : Nat) (wait : Bool)
    (imgs : Nat → PolledImage)
    (hf : ∀ k, k < wt → fetch k = Except.ok (imgs k))
    (j : Nat) (hj : j < wt) (hav : (imgs j).state = "available")
    (hna : ∀ k, k < j → (imgs k).state ≠ "available") :
    ∀ (fuel i : Nat) (last : Option PolledImage), wt ≤ fuel + i → i ≤ j →
      pollGo fetch wt wait fuel i last = PollResult.broke (imgs j) (j + 1) := by
  intro fuel
  induction fuel with
  | zero => intro i last hfu hij; exfalso; omega
  | succ fuel ih =>
    intro i last hfu hij
    have hlt : i < wt := by omega
    rw [pollGo, if_pos hlt]
    simp only [hf i hlt]
    by_cases hcase : i = j
    · subst hcase
      simp [hav]
    · have hnai : (imgs i).state ≠ "available" := hna i (by omega)
      rw [if_neg hnai]
      exact ih (i + 1) (some (imgs i)) (by omega) (by omega)

/-- When every fetched record in range is non-available, the poll loop
exhausts all `wt` iterations and ends carrying the record of the last
iteration. -/
theorem pollGo_exhausts_none_available
    (fetch : Nat → Except AwsError PolledImage) (wt : Nat) (wait : Bool)
    (imgs : Nat → PolledImage)
    (hf : ∀ k, k < wt → fetch k = Except.ok (imgs k))
    (hna : ∀ k, k < wt → (imgs k).state ≠ "available") :
    ∀ (fuel i : Nat) (last : Option PolledImage), wt ≤ fuel + i → i < wt →
      pollGo fetch wt wait fuel i last =
        PollResult.exhausted (some (imgs (wt - 1))) wt := by
  intro fuel
  induction fuel with
  | zero => intro i last hfu hlt; exfalso; omega
  | succ fuel ih =>
    intro i last hfu hlt
    rw [pollGo, if_pos hlt]
    simp only [hf i hlt]
    rw [if_neg (hna i hlt)]
    by_cases hend : i + 1 < wt
    · exact ih (i + 1) (some (imgs i)) (by omega) hend
    · have hout : ∀ (f : Nat) (l : Option PolledImage),
          pollGo fetch wt wait f (i + 1) l = PollResult.exhausted l wt := by
        intro f l
        cases f with
        | zero => rw [pollGo]
        | succ f => rw [pollGo, if_neg (by omega)]
      rw [hout]
      have hiw : i = wt - 1 := by omega
      rw [hiw]

/-! ### C6: the EnsurePresent poll loop -/

/-- C6: under a run reaching the poll loop (empty name lookup, a
create-from-instance call that returned an id) with every in-range fetch
returning a record: the loop enters at most `wait_timeout` iterations
(each iteration is one fetch followed by the one-second sleep of the
`finally` clause, src 492-493); it breaks at the first iteration whose
record is available, having entered exactly that many iterations; and if
no record in `wait_timeout` iterations is available, `create_image`
fails with the convergence-timeout message (src 495-496). -/
theorem create_poll_loop_spec
    (p : Params) (ec2 : Ec2) (n cid : String) (wt : Nat)
    (imgs : Nat → PolledImage)
    (hname : p.name = some n)
    (hlookup : ec2.get_all_images n = [])
    (hdm : p.device_mapping = none)
    (hinstT : optStrTruthy p.instance_id = true)
    (hsnap : optStrTruthy p.snapshot_id = false)
    (hcreate : ec2.create_image_result = Except.ok cid)
    (hwt : p.wait_timeout = wt)
    (hf : ∀ k, k < wt → ec2.poll_get_image k = Except.ok (imgs k)) :
    pollIters (pollLoop ec2.poll_get_image wt p.wait) ≤ wt ∧
    (∀ j, j < wt → (imgs j).state = "available" →
      (∀ k, k < j → (imgs k).state ≠ "available") →
      pollLoop ec2.poll_get_image wt p.wait = PollResult.broke (imgs j) (j + 1)) ∧
    ((∀ k, k < wt → (imgs k).state ≠ "available") → 0 < wt →
      (create_image p ec2).fst = CreateOutcome.fail convergenceTimeoutMsg none) := by
  refine ⟨pollGo_iters_le ec2.poll_get_image wt p.wait wt 0 none, ?_, ?_⟩
  · intro j hj hav hna
    exact pollGo_breaks_first_available ec2.poll_get_image wt p.wait imgs hf
      j hj hav hna wt 0 none (by omega) (by omega)
  · intro hna hpos
    have hexh : pollLoop ec2.poll_get_image wt p.wait =
        PollResult.exhausted (some (imgs (wt - 1))) wt :=
      pollGo_exhausts_none_available ec2.poll_get_image wt p.wait imgs hf hna
        wt 0 none (by omega) hpos
    have hnav : (imgs (wt - 1)).state ≠ "available" := hna (wt - 1) (by omega)
    simp [create_image, createRegisterPhase, registerPhase, postCreatePhase,
      hname, hlookup, hdm, hinstT, hsnap, hcreate, hwt, hexh, hnav, listOptTruthy]

/-- A create request polling for at most 3 iterations. -/
def pC6 : Params :=
  { paramsBase with
    name := some "img6",
    instance_id := some "i-06",
    wait_timeout := 3 }

/-- Polled states: pending for the first two iterations, then available. -/
def imgsC6 : Nat → PolledImage := fun i =>
  if i < 2 then ⟨"ami-06", "pending"⟩ else ⟨"ami-06", "available"⟩

/-- Oracle whose poll fetches follow `imgsC6`. -/
def ec2C6a : Ec2 :=
  { ec2Base with poll_get_image := fun i => Except.ok (imgsC6 i) }

/-- Oracle whose poll fetches never report an available image. -/
def ec2C6b : Ec2 :=
  { ec2Base with poll_get_image := fun _ => Except.ok ⟨"ami-06", "pending"⟩ }

/-- Witness for `create_poll_loop_spec`: with availability at iteration
2 of 3 the loop breaks there; with no availability `create_image` fails
with the convergence-timeout message. -/
theorem create_poll_loop_spec_witness :
    pollLoop ec2C6a.poll_get_image 3 pC6.wait = PollResult.broke ⟨"ami-06", "available"⟩ 3 ∧
    (create_image pC6 ec2C6b).fst = CreateOutcome.fail convergenceTimeoutMsg none :=
  ⟨(create_poll_loop_spec pC6 ec2C6a "img6" "ami-created" 3 imgsC6
      rfl rfl rfl rfl rfl rfl rfl (fun _k _hk => rfl)).2.1
      2 (by omega) rfl (by decide),
   (create_poll_loop_spec pC6 ec2C6b "img6" "ami-created" 3
      (fun _ => ⟨"ami-06", "pending"⟩)
      rfl rfl rfl rfl rfl rfl rfl (fun _k _hk => rfl)).2.2
      (by decide) (by omega)⟩

/-! ### C8: the EnsureAbsent wait loop polls to an absolute deadline -/

/-- While the image stays retrievable, the wait loop keeps iterating
until the clock reaches the deadline. -/
theorem deregGo_reaches_deadline
    (fetch : Nat → Option BotoImage) (deadline : Nat)
    (hall : ∀ t, (fetch t).isSome = true) :
    ∀ (fuel now : Nat) (img : Option BotoImage) (fetches : Nat),
      img.isSome = true → deadline ≤ 3 * fuel + now →
      deadline ≤ (deregGo fetch true deadline fuel now img fetches).fst := by
  intro fuel
  induction fuel with
  | zero =>
    intro now img fetches _himg hfu
    rw [deregGo]
    omega
  | succ fuel ih =>
    intro now img fetches himg hfu
    rw [deregGo]
    by_cases hcond : (true = true ∧ now < deadline ∧ img.isSome = true)
    · rw [if_pos hcond]
      exact ih (now + 3) (fetch now) (fetches + 1) (hall now) (by omega)
    · rw [if_neg hcond]
      have hnow : ¬ now < deadline := fun hlt => hcond ⟨rfl, hlt, himg⟩
      show deadline ≤ now
      omega

/-- C8: in `deregister_image` with `wait` requested, after a successful
deregister call, the loop (src 546-550) polls against the absolute
deadline `0 + wait_timeout` (clock at loop setup plus the timeout, not
an iteration count), sleeping 3 seconds per iteration; when the image
stays retrievable at every sampled time, the loop only stops once the
clock has reached the deadline and the operation fails hard with the
timeout message (src 551-553). -/
theorem deregister_wait_deadline_timeout
    (p : Params) (ec2 : Ec2) (img : BotoImage)
    (hwait : p.wait = true)
    (himg : ec2.dereg_get_image = some img)
    (hid : img.hasId = true)
    (hdereg : ec2.deregister_result = none)
    (hall : ∀ t, (ec2.wait_get_image t).isSome = true) :
    p.wait_timeout ≤
      (deregWaitLoop ec2.wait_get_image p.wait (0 + p.wait_timeout)
        (ec2.wait_get_image 0)).fst ∧
    (deregister_image p ec2).fst = DeregOutcome.fail deregTimeoutMsg none := by
  have hreach : p.wait_timeout ≤
      (deregWaitLoop ec2.wait_get_image p.wait (0 + p.wait_timeout)
        (ec2.wait_get_image 0)).fst := by
    rw [hwait]
    unfold deregWaitLoop
    have h := deregGo_reaches_deadline ec2.wait_get_image (0 + p.wait_timeout) hall
      (0 + p.wait_timeout) 0 (ec2.wait_get_image 0) 0 (hall 0) (by omega)
    omega
  refine ⟨hreach, ?_⟩
  have hdec : decide ((0 + p.wait_timeout) ≤
      (deregWaitLoop ec2.wait_get_image p.wait (0 + p.wait_timeout)
        (ec2.wait_get_image 0)).fst) = true :=
    decide_eq_true (by omega)
  simp [deregister_image, himg, hid, hdereg, hwait, hdec] at hdec ⊢
  simp [hdec]

/-- A deregister request waiting with a 4-second timeout. -/
def pC8 : Params :=
  { paramsBase with
    state := "absent",
    image_id := some "ami-08",
    wait := true,
    wait_timeout := 4 }

/-- Oracle for C8: the image exists and every wait-loop fetch still
returns it. -/
def ec2C8 : Ec2 :=
  { ec2Base with
    dereg_get_image := some ⟨true, []⟩,
    wait_get_image := fun _ => some ⟨true, []⟩ }

/-- Witness for `deregister_wait_deadline_timeout` at a concrete input. -/
theorem deregister_wait_deadline_timeout_witness :
    (4 : Nat) ≤
      (deregWaitLoop ec2C8.wait_get_image pC8.wait (0 + 4) (ec2C8.wait_get_image 0)).fst ∧
    (deregister_image pC8 ec2C8).fst = DeregOutcome.fail deregTimeoutMsg none :=
  deregister_wait_deadline_timeout pC8 ec2C8 ⟨true, []⟩ rfl rfl rfl rfl (fun _t => rfl)

/-! ### C3: register with a device mapping never assigns image_id -/

/-- A register request with a device mapping only. -/
def pC3 : Params :=
  { paramsBase with
    action := "register",
    virtualization_type := some "hvm",
    name := some "img3",
    device_mapping := some [⟨some "/dev/sda1"⟩] }

/-- Registry already holding an image named img3. -/
def ec2C3 : Ec2 :=
  { ec2Base with
    get_all_images := fun m =>
      if m == "img3" then [⟨"ami-03", "available", "img3"⟩] else [] }

/-- C3 counterexample: a register-mode request with a device mapping and
no snapshot_id whose name is already present exits cleanly through the
name-lookup shortcut (src 457-458); it does not terminate abnormally, so
the claim does not hold of every such request. -/
theorem register_device_mapping_existing_name_no_crash_ce :
    (create_image pC3 ec2C3).fst = CreateOutcome.exitAlreadyPresent "ami-03" "available" ∧
    (create_image pC3 ec2C3).fst ≠ CreateOutcome.nameError := by
  constructor
  · rfl
  · decide

/-- C3 (amended): a register-mode request (no instance identifier) that
passes validation with a device mapping and no snapshot_id, and whose
name matches no existing image, reaches src 472-475 where neither
conditional call fires: no create-from-instance and no
register-from-snapshot call is issued, `image_id` is never assigned, and
the run aborts with the unbound-name error at the first poll read
(src 485); the only registry call issued is the name lookup. -/
theorem register_device_mapping_unbound_image_id
    (p : Params) (ec2 : Ec2) (n : String) (ds : List DeviceSpec)
    (hstate : p.state = "present")
    (hroute : (optStrTruthy p.image_id && permsTruthy p.launch_permissions) = false)
    (haction : p.action = "register")
    (hvt : p.virtualization_type = some "hvm")
    (hsnap : optStrTruthy p.snapshot_id = false)
    (hdm : p.device_mapping = some ds)
    (hdmT : listOptTruthy p.device_mapping = true)
    (hnamed : allDevicesNamed ds = true)
    (harch : p.architecture = "x86_64")
    (hdrvot : p.delete_root_volume_on_termination = false)
    (hsriov : p.sriov_net_support = none)
    (hname : p.name = some n)
    (hnameT : optStrTruthy p.name = true)
    (hinst : optStrTruthy p.instance_id = false)
    (hlookup : ec2.get_all_images n = []) :
    main p ec2 = (MainResult.created CreateOutcome.nameError, [Call.get_all_images n]) := by
  have h1 : optStrTruthy p.virtualization_type = true := by rw [hvt]; rfl
  have h2 : (p.virtualization_type.getD "" == "paravirtual" ||
      p.virtualization_type.getD "" == "hvm") = true := by rw [hvt]; rfl
  have hval : presentValidation p = none := by
    unfold presentValidation
    rw [haction]
    simp [h1, h2, hsnap, hdmT, harch, hdrvot, hsriov, hnameT, sriovBad]
  have hci : create_image p ec2 = (CreateOutcome.nameError, [Call.get_all_images n]) := by
    simp [create_image, createRegisterPhase, registerPhase, postCreatePhase,
      hname, hlookup, hdm, hnamed, hinst, hsnap]
  simp [main, hstate, hroute, hval, hci]

/-- Witness for `register_device_mapping_unbound_image_id` at a concrete
input (the `pC3` request against an empty registry). -/
theorem register_device_mapping_unbound_image_id_witness :
    main pC3 ec2Base =
      (MainResult.created CreateOutcome.nameError, [Call.get_all_images "img3"]) :=
  register_device_mapping_unbound_image_id pC3 ec2Base "img3" [⟨some "/dev/sda1"⟩]
    rfl rfl rfl rfl rfl rfl rfl rfl rfl rfl rfl rfl rfl rfl rfl

/-! ### C9: failures after the image is created and available -/

/-- C9: once the created image has been observed available, a tagging
failure is fatal with the tagging message and no image id in the payload,
and no deregister or snapshot-deletion call is ever issued (no rollback,
src 498-502); a failure while refetching the image or setting launch
permissions is fatal with the image id included in the `fail_json`
payload (src 503-508). -/
theorem create_post_steps_failure_handling
    (p : Params) (ec2 : Ec2) (n inst cid : String) (img0 : PolledImage)
    (hname : p.name = some n)
    (hlookup : ec2.get_all_images n = [])
    (hdm : p.device_mapping = none)
    (hinst : p.instance_id = some inst)
    (hinstT : optStrTruthy p.instance_id = true)
    (hsnap : optStrTruthy p.snapshot_id = false)
    (hcreate : ec2.create_image_result = Except.ok cid)
    (hwt : 0 < p.wait_timeout)
    (hf0 : ec2.poll_get_image 0 = Except.ok img0)
    (hav : img0.state = "available") :
    (∀ e : AwsError, listOptTruthy p.tags = true → ec2.create_tags_result = some e →
      (create_image p ec2).fst = CreateOutcome.fail (tagFailMsg e) none ∧
      (create_image p ec2).snd =
        [Call.get_all_images n, Call.create_from_instance inst n,
         Call.get_image cid, Call.create_tags cid] ∧
      (∀ q b, Call.deregister q b ∉ (create_image p ec2).snd) ∧
      (∀ s, Call.delete_snapshot s ∉ (create_image p ec2).snd)) ∧
    (listOptTruthy p.tags = false → permsTruthy p.launch_permissions = true →
      (∀ e : AwsError, ec2.perm_get_image = Except.error e →
        (create_image p ec2).fst = CreateOutcome.fail (serverErrMsg e) (some cid)) ∧
      (∀ (e : AwsError) (img2 : PolledImage), ec2.perm_get_image = Except.ok img2 →
        ec2.set_launch_permissions_result = some e →
        (create_image p ec2).fst = CreateOutcome.fail (serverErrMsg e) (some cid))) := by
  obtain ⟨wt, hwt'⟩ : ∃ wt, p.wait_timeout = wt + 1 := ⟨p.wait_timeout - 1, by omega⟩
  have hpoll : pollLoop ec2.poll_get_image p.wait_timeout p.wait = PollResult.broke img0 1 := by
    rw [hwt', pollLoop, pollGo, if_pos (by omega : (0 : Nat) < wt + 1)]
    simp [hf0, hav]
  have hinstT' : optStrTruthy (some inst) = true := hinst ▸ hinstT
  have hbase : create_image p ec2 =
      tagsPhase p ec2 cid img0
        [Call.get_all_images n, Call.create_from_instance inst n, Call.get_image cid] := by
    simp [create_image, createRegisterPhase, registerPhase, postCreatePhase,
      hname, hlookup, hdm, hinstT', hinst, hsnap, hcreate, hpoll, pollIters,
      listOptTruthy, allDevicesNamed]
  constructor
  · intro e htags htag
    have hres : create_image p ec2 =
        (CreateOutcome.fail (tagFailMsg e) none,
         [Call.get_all_images n, Call.create_from_instance inst n,
          Call.get_image cid, Call.create_tags cid]) := by
      rw [hbase]
      simp [tagsPhase, htags, htag]
    refine ⟨by rw [hres], by rw [hres], ?_, ?_⟩
    · intro q b; rw [hres]; simp
    · intro s; rw [hres]; simp
  · intro htags hperms
    constructor
    · intro e hpg
      rw [hbase]
      simp [tagsPhase, permsPhase, htags, hperms, hpg]
    · intro e img2 hpg hset
      rw [hbase]
      simp [tagsPhase, permsPhase, htags, hperms, hpg, hset]

/-- A create request with tags. -/
def pC9a : Params :=
  { paramsBase with
    name := some "img9",
    instance_id := some "i-09",
    wait_timeout := 1,
    tags := some [("Name", "x")] }

/-- A create request with launch permissions and no tags. -/
def pC9b : Params :=
  { paramsBase with
    name := some "img9",
    instance_id := some "i-09",
    wait_timeout := 1,
    launch_permissions := some ⟨some ["111"], none⟩ }

/-- Oracle whose tagging call fails. -/
def ec2C9a : Ec2 :=
  { ec2Base with
    create_image_result := Except.ok "ami-09",
    poll_get_image := fun _ => Except.ok ⟨"ami-09", "available"⟩,
    create_tags_result := some ⟨"TagLimitExceeded", "too many tags"⟩ }

/-- Oracle whose permission-phase refetch fails. -/
def ec2C9b : Ec2 :=
  { ec2Base with
    create_image_result := Except.ok "ami-09",
    poll_get_image := fun _ => Except.ok ⟨"ami-09", "available"⟩,
    perm_get_image := Except.error ⟨"AuthFailure", "denied"⟩ }

/-- Oracle whose set-launch-permissions call fails. -/
def ec2C9c : Ec2 :=
  { ec2Base with
    create_image_result := Except.ok "ami-09",
    poll_get_image := fun _ => Except.ok ⟨"ami-09", "available"⟩,
    perm_get_image := Except.ok ⟨"ami-09", "available"⟩,
    set_launch_permissions_result := some ⟨"InvalidAMIAttributeItemValue", "bad item"⟩ }

/-- Witness for `create_post_steps_failure_handling` at concrete
inputs. -/
theorem create_post_steps_failure_handling_witness :
    ((create_image pC9a ec2C9a).fst =
       CreateOutcome.fail (tagFailMsg ⟨"TagLimitExceeded", "too many tags"⟩) none ∧
     (∀ q b, Call.deregister q b ∉ (create_image pC9a ec2C9a).snd)) ∧
    (create_image pC9b ec2C9b).fst =
      CreateOutcome.fail (serverErrMsg ⟨"AuthFailure", "denied"⟩) (some "ami-09") ∧
    (create_image pC9b ec2C9c).fst =
      CreateOutcome.fail (serverErrMsg ⟨"InvalidAMIAttributeItemValue", "bad item"⟩)
        (some "ami-09") :=
  ⟨⟨((create_post_steps_failure_handling pC9a ec2C9a "img9" "i-09" "ami-09"
        ⟨"ami-09", "available"⟩ rfl rfl rfl rfl rfl rfl rfl (by decide) rfl rfl).1
        ⟨"TagLimitExceeded", "too many tags"⟩ rfl rfl).1,
    ((create_post_steps_failure_handling pC9a ec2C9a "img9" "i-09" "ami-09"
        ⟨"ami-09", "available"⟩ rfl rfl rfl rfl rfl rfl rfl (by decide) rfl rfl).1
        ⟨"TagLimitExceeded", "too many tags"⟩ rfl rfl).2.2.1⟩,
   ((create_post_steps_failure_handling pC9b ec2C9b "img9" "i-09" "ami-09"
        ⟨"ami-09", "available"⟩ rfl rfl rfl rfl rfl rfl rfl (by decide) rfl rfl).2
        rfl rfl).1 ⟨"AuthFailure", "denied"⟩ rfl,
   ((create_post_steps_failure_handling pC9b ec2C9c "img9" "i-09" "ami-09"
        ⟨"ami-09", "available"⟩ rfl rfl rfl rfl rfl rfl rfl (by decide) rfl rfl).2
        rfl rfl).2 ⟨"InvalidAMIAttributeItemValue", "bad item"⟩
        ⟨"ami-09", "available"⟩ rfl rfl⟩

/-! ### C10: call selection by identifier presence, not by action -/

/-- C10: a validation-passing `action=create` request with both an
instance id and a snapshot id issues the create-from-instance call and
then the register-from-snapshot call (src 472-475, two independent
conditionals keyed on the identifiers, not on `action`); the id returned
by the register call overwrites the created one and is the id used by
every subsequent poll, tag and permission call. -/
theorem create_then_register_sequence
    (p : Params) (ec2 : Ec2) (n inst sid cid rid : String)
    (lp : Perms) (img0 img2 : PolledImage) (ts : List (String × String))
    (hstate : p.state = "present")
    (himgid : p.image_id = none)
    (haction : p.action = "create")
    (hinst : p.instance_id = some inst)
    (hinstT : optStrTruthy p.instance_id = true)
    (hname : p.name = some n)
    (hnameT : optStrTruthy p.name = true)
    (hsnap : p.snapshot_id = some sid)
    (hsnapT : optStrTruthy p.snapshot_id = true)
    (hdm : p.device_mapping = none)
    (htags : p.tags = some ts)
    (htagsT : listOptTruthy p.tags = true)
    (hperms : p.launch_permissions = some lp)
    (hpermsT : permsTruthy p.launch_permissions = true)
    (hlookup : ec2.get_all_images n = [])
    (hcreate : ec2.create_image_result = Except.ok cid)
    (hreg : ec2.register_image_result = Except.ok rid)
    (hwt : 0 < p.wait_timeout)
    (hf0 : ec2.poll_get_image 0 = Except.ok img0)
    (hav : img0.state = "available")
    (htagok : ec2.create_tags_result = none)
    (hpget : ec2.perm_get_image = Except.ok img2)
    (hsetok : ec2.set_launch_permissions_result = none) :
    main p ec2 =
      (MainResult.created (CreateOutcome.exitComplete img2.id img2.state),
       [Call.get_all_images n, Call.create_from_instance inst n,
        Call.register_from_snapshot (some sid) n, Call.get_image rid,
        Call.create_tags rid, Call.get_image rid,
        Call.set_launch_permissions rid lp]) := by
  obtain ⟨wt, hwt'⟩ : ∃ wt, p.wait_timeout = wt + 1 := ⟨p.wait_timeout - 1, by omega⟩
  have hpoll : pollLoop ec2.poll_get_image p.wait_timeout p.wait = PollResult.broke img0 1 := by
    rw [hwt', pollLoop, pollGo, if_pos (by omega : (0 : Nat) < wt + 1)]
    simp [hf0, hav]
  have hval : presentValidation p = none := by
    unfold presentValidation
    rw [haction]
    simp [hinstT, hnameT]
  have hrt : (optStrTruthy p.image_id && permsTruthy p.launch_permissions) = false := by
    rw [himgid]; rfl
  have hinstT' : optStrTruthy (some inst) = true := hinst ▸ hinstT
  have hsnapT' : optStrTruthy (some sid) = true := hsnap ▸ hsnapT
  have htagsT' : listOptTruthy (some ts) = true := htags ▸ htagsT
  have hpermsT' : permsTruthy (some lp) = true := hperms ▸ hpermsT
  have hci : create_image p ec2 =
      (CreateOutcome.exitComplete img2.id img2.state,
       [Call.get_all_images n, Call.create_from_instance inst n,
        Call.register_from_snapshot (some sid) n, Call.get_image rid,
        Call.create_tags rid, Call.get_image rid,
        Call.set_launch_permissions rid lp]) := by
    have hlnone : listOptTruthy (none : Option (List DeviceSpec)) = false := rfl
    simp [create_image, createRegisterPhase, registerPhase, postCreatePhase,
      tagsPhase, permsPhase, hname, hlookup, hdm, hinstT', hinst, hsnapT', hsnap,
      hcreate, hreg, hpoll, pollIters, htagsT', htags, hpermsT', hperms, hpget, hsetok,
      htagok, hlnone]
  simp [main, hstate, hrt, hval, hci]

/-- A create request carrying both an instance id and a snapshot id. -/
def pC10 : Params :=
  { paramsBase with
    instance_id := some "i-10",
    snapshot_id := some "snap-10",
    name := some "img10",
    wait_timeout := 1,
    tags := some [("Name", "img10")],
    launch_permissions := some ⟨some ["111"], none⟩ }

/-- Oracle for C10: create and register return distinct ids. -/
def ec2C10 : Ec2 :=
  { ec2Base with
    create_image_result := Except.ok "ami-10c",
    register_image_result := Except.ok "ami-10r",
    poll_get_image := fun _ => Except.ok ⟨"ami-10r", "available"⟩,
    perm_get_image := Except.ok ⟨"ami-10r", "available"⟩ }

/-- Witness for `create_then_register_sequence` at a concrete input. -/
theorem create_then_register_sequence_witness :
    main pC10 ec2C10 =
      (MainResult.created (CreateOutcome.exitComplete "ami-10r" "available"),
       [Call.get_all_images "img10", Call.create_from_instance "i-10" "img10",
        Call.register_from_snapshot (some "snap-10") "img10", Call.get_image "ami-10r",
        Call.create_tags "ami-10r", Call.get_image "ami-10r",
        Call.set_launch_permissions "ami-10r" ⟨some ["111"], none⟩]) :=
  create_then_register_sequence pC10 ec2C10 "img10" "i-10" "snap-10" "ami-10c" "ami-10r"
    ⟨some ["111"], none⟩ ⟨"ami-10r", "available"⟩ ⟨"ami-10r", "available"⟩
    [("Name", "img10")]
    rfl rfl rfl rfl rfl rfl rfl rfl rfl rfl rfl rfl rfl rfl rfl rfl rfl
    (by decide) rfl rfl rfl rfl rfl

end Ec2Ami
